import Mathlib

/-!
# Verification of the Y-TRUST semantic recipe-retrieval core

A shallow embedding of the retrieval core of `app3.py` (the Streamlit
front-end of the Y-TRUST ingredient analyzer), together with proofs of the
specified properties.

The embedded pipeline (lines 96-120 of `app3.py`):
* `load_recipes`      — `pd.read_csv(...)` followed by `df.dropna(subset=["name"])`
                        and `df["name"].tolist()`;
* `buildIndex`        — `model.encode(recipe_names, convert_to_tensor=True)`,
                        a batch encode, one vector per name, order preserving;
* `cosSim`            — `util.pytorch_cos_sim`, i.e. the dot product of the
                        L2-normalized vectors (real-arithmetic semantics:
                        a zero vector normalizes to the zero vector);
* `argmaxIdx`         — `tensor.argmax()`, the index of the first occurrence
                        of the maximum;
* `resolveQuery`      — encode the query, score it against every index entry,
                        select `recipe_names[best_index]`; an empty score
                        tensor makes `argmax` fail, modelled as
                        `EmptyCatalogError`, and an index position outside
                        the catalog makes list indexing fail, modelled as
                        `IndexCatalogMismatchError`;
* `mkPredictRequest`  — `{"recipe_name": matched_recipe.strip().lower()}`;
* `queryApiStep`      — the single POST to the prediction gateway and the
                        handling of its response (success renders, non-200
                        surfaces `f"🚫 API error {status_code}: {text}"`).

Python strings are modelled as `List Char`, embedding vectors as `List ℝ`
(exact real arithmetic in place of float32), and the sentence-embedding
model as an abstract function `PyStr → Vec`.
-/

/-- A Python string, modelled as a list of characters. -/
abbrev PyStr := List Char

/-- An embedding vector, modelled as a list of real scalars
(float32 entries of the tensor, idealized to exact reals). -/
abbrev Vec := List ℝ

/-! ## Cosine similarity (`sentence_transformers.util.pytorch_cos_sim`) -/

/-- Dot product of two vectors, pointwise product then sum
(`torch.mm` of a row with a column). -/
noncomputable def dot (a b : Vec) : ℝ :=
  (List.zipWith (· * ·) a b).sum

/-- Euclidean magnitude of a vector (`torch.norm`, p = 2). -/
noncomputable def magnitude (v : Vec) : ℝ :=
  Real.sqrt (dot v v)

/-- L2 normalization of a vector (`torch.nn.functional.normalize(v, p=2)`):
each entry divided by the magnitude.  In real arithmetic a zero-magnitude
vector maps to the zero vector, exactly as the library's epsilon-clamped
division sends the zero vector to the zero vector. -/
noncomputable def l2normalize (v : Vec) : Vec :=
  v.map (fun x => x / magnitude v)

/-- Cosine similarity as computed by `util.pytorch_cos_sim`: L2-normalize
both vectors, then take the dot product. -/
noncomputable def cosSim (a b : Vec) : ℝ :=
  dot (l2normalize a) (l2normalize b)

/-! ## `tensor.argmax()` -/

/-- `tensor.argmax()` on a one-dimensional tensor: the index of the first
occurrence of the maximum entry (on ties, torch returns the first maximal
index).  On an empty list the value is irrelevant (torch raises; the caller
`resolveQuery` guards this case). -/
def argmaxIdx [LinearOrder α] : List α → Nat
  | [] => 0
  | x :: xs => if x < xs.getD (argmaxIdx xs) x then argmaxIdx xs + 1 else 0

/-! ## Catalog loading (`load_recipes`) -/

/-- The field texts pandas' default NA handling (`keep_default_na=True`,
no `na_values` override, as in app3.py line 98) parses as `NaN`: the empty
field together with the default NA sentinel strings. -/
def pandasNaSentinels : List PyStr :=
  ["".toList, "#N/A".toList, "#N/A N/A".toList, "#NA".toList,
   "-1.#IND".toList, "-1.#QNAN".toList, "-NaN".toList, "-nan".toList,
   "1.#IND".toList, "1.#QNAN".toList, "<NA>".toList, "N/A".toList,
   "NA".toList, "NULL".toList, "NaN".toList, "None".toList,
   "n/a".toList, "nan".toList, "null".toList]

/-- `pd.read_csv` on the `name` column.  A source cell is either absent
(`none`) or a text field; pandas' default NA handling parses an absent
cell, an empty field, and every default NA sentinel string (`"NA"`,
`"null"`, `"None"`, ...) as `NaN` (`none` here), and any other field as
the string itself. -/
def readNameColumn (raw : List (Option PyStr)) : List (Option PyStr) :=
  raw.map (fun cell =>
    match cell with
    | none => none
    | some s => if s ∈ pandasNaSentinels then none else some s)

/-- `df.dropna(subset=["name"])` followed by `df["name"].tolist()`:
keep, in order, exactly the rows whose name is present. -/
def dropnaNames (col : List (Option PyStr)) : List PyStr :=
  col.filterMap id

/-- `load_recipes` (app3.py lines 96-99) composed with the
`df_recipes["name"].tolist()` extraction of line 102: the ordered list of
recipe names whose field was not parsed as `NaN` (missing, empty, or a
default NA sentinel string). -/
def load_recipes (raw : List (Option PyStr)) : List PyStr :=
  dropnaNames (readNameColumn raw)

/-- The name value of a source cell: the text of a present field, the empty
string for a missing one (used only to state which rows survive loading). -/
def cellValue (cell : Option PyStr) : PyStr :=
  cell.getD []

/-! ## Index construction and query resolution -/

/-- `model.encode(recipe_names, convert_to_tensor=True)` (app3.py line 104):
batch-encode the whole catalog in one call, one vector per name, in catalog
order.  The sentence-embedding model itself is the abstract `encode`. -/
def buildIndex (encode : PyStr → Vec) (recipe_names : List PyStr) : List Vec :=
  recipe_names.map encode

/-- Failure modes of query resolution (spec §7): an empty catalog has no
valid match (`argmax` of an empty tensor raises), and a best index outside
the catalog (index/catalog length mismatch) makes `recipe_names[best_index]`
raise. -/
inductive ResolveError where
  | emptyCatalog
  | indexCatalogMismatch
deriving DecidableEq, Repr

/-- The resolver's output: the best-matching recipe name together with its
similarity score (spec §3, `QueryResult`). -/
structure QueryResult where
  recipe_name : PyStr
  score : ℝ

/-- The query-resolution block of app3.py (lines 110-115):

```
query_embedding = model.encode(user_query, convert_to_tensor=True)
scores = util.pytorch_cos_sim(query_embedding, recipe_embeddings)[0]
best_index = scores.argmax()
matched_recipe = recipe_names[best_index]
```

`scores` is the row of cosine similarities of the query vector against every
index vector.  An empty `scores` tensor makes `argmax` raise
(`EmptyCatalogError`); a `best_index` outside `recipe_names` makes the list
indexing raise (`IndexCatalogMismatchError`). -/
noncomputable def resolveQuery (encode : PyStr → Vec) (recipe_names : List PyStr)
    (recipe_embeddings : List Vec) (user_query : PyStr) :
    Except ResolveError QueryResult :=
  let query_embedding := encode user_query
  let scores := recipe_embeddings.map (cosSim query_embedding)
  if scores.isEmpty then
    .error .emptyCatalog
  else
    let best_index := argmaxIdx scores
    match recipe_names[best_index]? with
    | some matched_recipe => .ok ⟨matched_recipe, scores.getD best_index 0⟩
    | none => .error .indexCatalogMismatch


/-! ## The prediction-gateway request (app3.py line 120) -/

/-- Python's whitespace test used by `str.strip()` (ASCII range): space,
tab, newline, carriage return, vertical tab, form feed. -/
def isPySpace (c : Char) : Bool :=
  decide (c.toNat = 32 ∨ c.toNat = 9 ∨ c.toNat = 10 ∨ c.toNat = 13 ∨
    c.toNat = 11 ∨ c.toNat = 12)

/-- Python `str.strip()`: remove leading and trailing whitespace. -/
def pyStrip (s : PyStr) : PyStr :=
  ((s.dropWhile isPySpace).reverse.dropWhile isPySpace).reverse

/-- Python `str.lower()` (basic-latin fragment, as `Char.toLower`). -/
def pyLower (s : PyStr) : PyStr :=
  s.map Char.toLower

/-- The JSON body POSTed to `/ingredients/predict`. -/
structure PredictRequest where
  recipe_name : PyStr
deriving DecidableEq, Repr

/-- app3.py line 120: `json={"recipe_name": matched_recipe.strip().lower()}`. -/
def mkPredictRequest (matched_recipe : PyStr) : PredictRequest :=
  ⟨pyLower (pyStrip matched_recipe)⟩

/-! ## Handling the gateway response (app3.py lines 119-194) -/

/-- An HTTP response from the prediction gateway: a status code and the
response body text. -/
structure ApiResponse where
  status_code : Nat
  text : PyStr
deriving DecidableEq, Repr

/-- What the front-end shows for one response: either the rendered success
view (tables/charts built from the body, out of the retrieval core's scope)
or the error banner of line 194. -/
inductive ApiOutcome where
  | rendered (body : PyStr)
  | apiError (message : PyStr)
deriving DecidableEq, Repr

/-- The error banner of app3.py line 194:
`f"🚫 API error {response.status_code}: {response.text}"`. -/
def errorText (status : Nat) (body : PyStr) : PyStr :=
  "🚫 API error ".toList ++ (Nat.repr status).toList ++ ": ".toList ++ body

/-- Lines 121-194: a 200 response is rendered from its body; any other
status falls to the `st.error` banner carrying the code and the body. -/
def handleApiResponse (resp : ApiResponse) : ApiOutcome :=
  if resp.status_code = 200 then .rendered resp.text
  else .apiError (errorText resp.status_code resp.text)

/-- The whole gateway interaction for one resolved recipe (lines 118-194):
the in-memory catalog and index (never assigned in this block), the list of
requests POSTed (exactly one, line 120), and the outcome shown. -/
def queryApiStep (recipe_names : List PyStr) (recipe_embeddings : List Vec)
    (matched_recipe : PyStr) (resp : ApiResponse) :
    (List PyStr × List Vec) × List PredictRequest × ApiOutcome :=
  ((recipe_names, recipe_embeddings),
   [mkPredictRequest matched_recipe],
   handleApiResponse resp)

/-! ## Properties of `argmaxIdx` -/

theorem argmaxIdx_cons [LinearOrder α] (x : α) (xs : List α) :
    argmaxIdx (x :: xs) =
      if x < xs.getD (argmaxIdx xs) x then argmaxIdx xs + 1 else 0 := by
  simp [argmaxIdx]

theorem getD_default_irrel (l : List α) {i : Nat} (h : i < l.length) (d d' : α) :
    l.getD i d = l.getD i d' := by
  rw [List.getD_eq_getElem l d h, List.getD_eq_getElem l d' h]

theorem argmaxIdx_lt_length [LinearOrder α] {l : List α} (h : l ≠ []) :
    argmaxIdx l < l.length := by
  induction l with
  | nil => exact absurd rfl h
  | cons x xs ih =>
    rw [argmaxIdx_cons]
    by_cases hc : x < xs.getD (argmaxIdx xs) x
    · have hxs : xs ≠ [] := by
        rintro rfl
        rw [show ([] : List α).getD (argmaxIdx ([] : List α)) x = x from rfl] at hc
        exact lt_irrefl x hc
      rw [if_pos hc, List.length_cons]
      exact Nat.succ_lt_succ (ih hxs)
    · rw [if_neg hc]
      exact Nat.succ_pos _

theorem getD_le_getD_argmaxIdx [LinearOrder α] (l : List α) (d : α) :
    ∀ i < l.length, l.getD i d ≤ l.getD (argmaxIdx l) d := by
  induction l with
  | nil => intro i hi; simp at hi
  | cons x xs ih =>
    intro i hi
    rw [argmaxIdx_cons]
    by_cases hc : x < xs.getD (argmaxIdx xs) x
    · have hxs : xs ≠ [] := by
        rintro rfl
        rw [show ([] : List α).getD (argmaxIdx ([] : List α)) x = x from rfl] at hc
        exact lt_irrefl x hc
      have hj : argmaxIdx xs < xs.length := argmaxIdx_lt_length hxs
      have hcd : x < xs.getD (argmaxIdx xs) d := by
        rw [getD_default_irrel xs hj d x]; exact hc
      rw [if_pos hc]
      cases i with
      | zero => rw [List.getD_cons_zero, List.getD_cons_succ]; exact le_of_lt hcd
      | succ k =>
        rw [List.getD_cons_succ, List.getD_cons_succ]
        exact ih k (by simpa using hi)
    · rw [if_neg hc]
      cases i with
      | zero => exact le_refl _
      | succ k =>
        rw [List.getD_cons_succ, List.getD_cons_zero]
        have hk : k < xs.length := by simpa using hi
        have hxs : xs ≠ [] := by
          rintro rfl
          simp at hk
        have hj : argmaxIdx xs < xs.length := argmaxIdx_lt_length hxs
        calc xs.getD k d ≤ xs.getD (argmaxIdx xs) d := ih k hk
          _ = xs.getD (argmaxIdx xs) x := getD_default_irrel xs hj d x
          _ ≤ x := not_lt.mp hc

theorem getD_lt_of_lt_argmaxIdx [LinearOrder α] (l : List α) (d : α) :
    ∀ i < argmaxIdx l, l.getD i d < l.getD (argmaxIdx l) d := by
  induction l with
  | nil => intro i hi; simp [argmaxIdx] at hi
  | cons x xs ih =>
    intro i hi
    rw [argmaxIdx_cons] at hi ⊢
    by_cases hc : x < xs.getD (argmaxIdx xs) x
    · have hxs : xs ≠ [] := by
        rintro rfl
        rw [show ([] : List α).getD (argmaxIdx ([] : List α)) x = x from rfl] at hc
        exact lt_irrefl x hc
      have hj : argmaxIdx xs < xs.length := argmaxIdx_lt_length hxs
      have hcd : x < xs.getD (argmaxIdx xs) d := by
        rw [getD_default_irrel xs hj d x]; exact hc
      rw [if_pos hc] at hi ⊢
      cases i with
      | zero => rw [List.getD_cons_zero, List.getD_cons_succ]; exact hcd
      | succ k =>
        rw [List.getD_cons_succ, List.getD_cons_succ]
        exact ih k (by omega)
    · rw [if_neg hc] at hi
      exact absurd hi (Nat.not_lt_zero i)

/-! ## Resolution on an aligned, non-empty catalog -/

theorem resolveQuery_eq_ok (encode : PyStr → Vec) (recipe_names : List PyStr)
    (index : List Vec) (q : PyStr) (hne : recipe_names ≠ [])
    (hlen : index.length = recipe_names.length) :
    argmaxIdx (index.map (cosSim (encode q))) < recipe_names.length ∧
    resolveQuery encode recipe_names index q =
      .ok ⟨recipe_names.getD (argmaxIdx (index.map (cosSim (encode q)))) [],
           (index.map (cosSim (encode q))).getD
             (argmaxIdx (index.map (cosSim (encode q)))) 0⟩ := by
  have hslen : (index.map (cosSim (encode q))).length = recipe_names.length := by
    rw [List.length_map, hlen]
  have hsne : index.map (cosSim (encode q)) ≠ [] := by
    intro h0
    rw [h0] at hslen
    exact hne (List.eq_nil_of_length_eq_zero hslen.symm)
  have hb : argmaxIdx (index.map (cosSim (encode q))) < recipe_names.length :=
    hslen ▸ argmaxIdx_lt_length hsne
  refine ⟨hb, ?_⟩
  unfold resolveQuery
  rw [if_neg (by simpa [List.isEmpty_iff] using hsne)]
  simp only [List.getElem?_eq_getElem hb]
  rw [List.getD_eq_getElem recipe_names [] hb]

/-! ## Properties of `cosSim` -/

theorem dot_map_div (a : Vec) : ∀ (b : Vec) (r s : ℝ),
    dot (a.map (fun x => x / r)) (b.map (fun y => y / s)) = dot a b / (r * s) := by
  induction a with
  | nil => intro b r s; simp [dot]
  | cons x xs ih =>
    intro b r s
    cases b with
    | nil => simp [dot]
    | cons y ys =>
      simp only [List.map_cons, dot, List.zipWith_cons_cons, List.sum_cons]
      rw [show (List.zipWith (· * ·) (xs.map fun x => x / r)
            (ys.map fun y => y / s)).sum
          = dot (xs.map fun x => x / r) (ys.map fun y => y / s) from rfl,
        ih ys r s, div_mul_div_comm, div_add_div_same]
      rfl

theorem cosSim_eq_dot_div (a b : Vec) :
    cosSim a b = dot a b / (magnitude a * magnitude b) := by
  unfold cosSim l2normalize
  exact dot_map_div a b (magnitude a) (magnitude b)

theorem magnitude_replicate_zero (n : Nat) :
    magnitude (List.replicate n (0 : ℝ)) = 0 := by
  have hdot : dot (List.replicate n (0 : ℝ)) (List.replicate n (0 : ℝ)) = 0 := by
    induction n with
    | zero => simp [dot]
    | succ k ih =>
      simp only [List.replicate_succ, dot, List.zipWith_cons_cons, List.sum_cons] at ih ⊢
      simp [ih]
  rw [magnitude, hdot, Real.sqrt_zero]

/-! ## Properties of `pyStrip`, `pyLower`, `mkPredictRequest` -/

theorem char_toNat_ofNat {n : Nat} (h : n.isValidChar) : (Char.ofNat n).toNat = n := by
  simp [Char.ofNat, h, Char.ofNatAux, Char.toNat, UInt32.toNat, BitVec.toNat_ofNatLt]

theorem toLower_def (c : Char) :
    Char.toLower c = if c.toNat ≥ 65 ∧ c.toNat ≤ 90 then Char.ofNat (c.toNat + 32) else c :=
  rfl

theorem isPySpace_toLower (c : Char) : isPySpace (Char.toLower c) = isPySpace c := by
  rw [toLower_def]
  by_cases h : c.toNat ≥ 65 ∧ c.toNat ≤ 90
  · rw [if_pos h]
    have ht : (Char.ofNat (c.toNat + 32)).toNat = c.toNat + 32 :=
      char_toNat_ofNat (Or.inl (by omega))
    unfold isPySpace
    rw [ht]
    simp only [decide_eq_decide]
    omega
  · rw [if_neg h]

theorem pyStrip_pyLower (s : PyStr) : pyStrip (pyLower s) = pyLower (pyStrip s) := by
  have hcomp : (isPySpace ∘ Char.toLower) = isPySpace := funext isPySpace_toLower
  simp only [pyStrip, pyLower]
  rw [List.dropWhile_map, hcomp, ← List.map_reverse, List.dropWhile_map, hcomp,
    ← List.map_reverse]

theorem dropWhile_append_all (p : α → Bool) (pre l : List α)
    (h : ∀ c ∈ pre, p c = true) : (pre ++ l).dropWhile p = l.dropWhile p := by
  induction pre with
  | nil => rfl
  | cons c cs ih =>
    rw [List.cons_append, List.dropWhile_cons, if_pos (h c (List.mem_cons_self c cs))]
    exact ih fun d hd => h d (List.mem_cons_of_mem c hd)

theorem pyStrip_pad (name pre post : PyStr)
    (hpre : ∀ c ∈ pre, isPySpace c = true) (hpost : ∀ c ∈ post, isPySpace c = true) :
    pyStrip (pre ++ (name ++ post)) = pyStrip name := by
  unfold pyStrip
  rw [dropWhile_append_all _ pre _ hpre]
  rcases hcase : name.dropWhile isPySpace with _ | ⟨x, t⟩
  · have hnp : (name ++ post).dropWhile isPySpace = [] := by
      refine List.dropWhile_eq_nil_iff.mpr fun c hc => ?_
      rcases List.mem_append.mp hc with h | h
      · exact List.dropWhile_eq_nil_iff.mp hcase c h
      · exact hpost c h
    rw [hnp]
  · rw [List.dropWhile_append, hcase]
    simp only [List.isEmpty_cons, Bool.false_eq_true, if_false]
    rw [List.reverse_append,
      dropWhile_append_all isPySpace post.reverse _
        (fun c hc => hpost c (List.mem_reverse.mp hc))]

/-! ## Claim theorems -/

/-- Counterexample to C5 as stated: a source whose single row is named
`"NA"` — the name is neither missing nor empty, yet pandas' default NA
parsing turns it into `NaN` and `dropna` removes the row, so the loader
does not return "exactly the rows' name values with every row whose name
is missing or empty removed". -/
theorem load_recipes_na_sentinel_counterexample :
    load_recipes [some "NA".toList] = [] ∧
    ([some "NA".toList].map cellValue).filter (fun s => !s.isEmpty) =
      ["NA".toList] ∧
    load_recipes [some "NA".toList] ≠
      ([some "NA".toList].map cellValue).filter (fun s => !s.isEmpty) := by
  refine ⟨by decide, by decide, by decide⟩

/-- C5 (amended): for every tabular source with a `name` column,
`load_recipes` returns exactly the rows' name values with every row whose
name is missing, empty, or one of pandas' default NA sentinel strings
removed, and the relative order of the remaining rows preserved (the
result is the order-preserving filter of the name values, and a sublist
of them). -/
theorem load_recipes_drops_blank_names (raw : List (Option PyStr)) :
    load_recipes raw =
      (raw.map cellValue).filter (fun s => decide (s ∉ pandasNaSentinels)) ∧
    (load_recipes raw).Sublist (raw.map cellValue) := by
  have h : load_recipes raw =
      (raw.map cellValue).filter (fun s => decide (s ∉ pandasNaSentinels)) := by
    induction raw with
    | nil => rfl
    | cons cell rest ih =>
      cases cell with
      | none =>
        have hnil : ([] : PyStr) ∈ pandasNaSentinels := by decide
        simpa [load_recipes, readNameColumn, dropnaNames, cellValue,
          List.filter_cons, hnil] using ih
      | some s =>
        by_cases hs : s ∈ pandasNaSentinels
        · simpa [load_recipes, readNameColumn, dropnaNames, cellValue,
            List.filter_cons, hs] using ih
        · simpa [load_recipes, readNameColumn, dropnaNames, cellValue,
            List.filter_cons, hs] using ih
  exact ⟨h, h ▸ List.filter_sublist _⟩

/-- C4: for every non-empty catalog, the built vector index has exactly as
many entries as the catalog, and the vector at position `i` is the encoding
of `catalog[i]`. -/
theorem buildIndex_positionally_aligned (encode : PyStr → Vec)
    (recipe_names : List PyStr) (_hne : recipe_names ≠ []) :
    (buildIndex encode recipe_names).length = recipe_names.length ∧
    ∀ i < recipe_names.length,
      (buildIndex encode recipe_names).getD i [] = encode (recipe_names.getD i []) := by
  refine ⟨by simp [buildIndex], fun i hi => ?_⟩
  have hi' : i < (buildIndex encode recipe_names).length := by
    simpa [buildIndex] using hi
  rw [List.getD_eq_getElem _ _ hi', List.getD_eq_getElem _ _ hi]
  simp [buildIndex]

/-- Witness for C4 at a concrete two-entry catalog. -/
theorem buildIndex_positionally_aligned_witness :
    (["apple pie".toList, "green salad".toList] : List PyStr) ≠ [] ∧
    (buildIndex (fun _ => [(1 : ℝ)]) ["apple pie".toList, "green salad".toList]).length =
      (["apple pie".toList, "green salad".toList] : List PyStr).length :=
  ⟨by decide,
   (buildIndex_positionally_aligned (fun _ => [(1 : ℝ)])
     ["apple pie".toList, "green salad".toList] (by decide)).1⟩

/-- C3: for every non-empty query string, resolving against a catalog with
zero entries (and its empty index) fails with the empty-catalog error,
never a silently defaulted result. -/
theorem resolveQuery_empty_catalog_error (encode : PyStr → Vec) (q : PyStr)
    (_hq : q ≠ []) :
    resolveQuery encode [] (buildIndex encode []) q = .error .emptyCatalog := rfl

/-- Witness for C3 at a concrete query. -/
theorem resolveQuery_empty_catalog_error_witness :
    ("anything sweet".toList : PyStr) ≠ [] ∧
    resolveQuery (fun _ => [(1 : ℝ)]) [] (buildIndex (fun _ => [(1 : ℝ)]) [])
      "anything sweet".toList = .error .emptyCatalog :=
  ⟨by decide,
   resolveQuery_empty_catalog_error (fun _ => [(1 : ℝ)]) "anything sweet".toList (by decide)⟩

/-- C7: resolution is deterministic — encoding the same text twice yields
equal vectors, and resolving equal queries against equal catalogs and
indexes yields equal results; the resolver depends on nothing but its
inputs. -/
theorem resolveQuery_deterministic (e₁ e₂ : PyStr → Vec) (n₁ n₂ : List PyStr)
    (v₁ v₂ : List Vec) (q₁ q₂ : PyStr) (he : e₁ = e₂) (hq : q₁ = q₂)
    (hn : n₁ = n₂) (hv : v₁ = v₂) :
    e₁ q₁ = e₂ q₂ ∧ resolveQuery e₁ n₁ v₁ q₁ = resolveQuery e₂ n₂ v₂ q₂ := by
  subst he; subst hq; subst hn; subst hv
  exact ⟨rfl, rfl⟩

/-- Witness for C7: two runs at the same concrete inputs agree. -/
theorem resolveQuery_deterministic_witness :
    (fun _ : PyStr => [(1 : ℝ)]) "soup".toList = (fun _ : PyStr => [(1 : ℝ)]) "soup".toList ∧
    resolveQuery (fun _ => [(1 : ℝ)]) ["soup".toList] [[(1 : ℝ)]] "soup".toList =
      resolveQuery (fun _ => [(1 : ℝ)]) ["soup".toList] [[(1 : ℝ)]] "soup".toList :=
  resolveQuery_deterministic (fun _ => [(1 : ℝ)]) (fun _ => [(1 : ℝ)])
    ["soup".toList] ["soup".toList] [[(1 : ℝ)]] [[(1 : ℝ)]]
    "soup".toList "soup".toList rfl rfl rfl rfl

/-- C1: for every non-empty query and non-empty catalog with its
positionally aligned index, resolution encodes the query, scores every
index vector by cosine similarity, and returns the catalog entry at the
position of maximum score together with that score. -/
theorem resolveQuery_returns_max_score_entry (encode : PyStr → Vec)
    (recipe_names : List PyStr) (index : List Vec) (q : PyStr) (_hq : q ≠ [])
    (hne : recipe_names ≠ []) (hlen : index.length = recipe_names.length) :
    ∃ best : Nat, best < recipe_names.length ∧
      resolveQuery encode recipe_names index q =
        .ok ⟨recipe_names.getD best [],
             (index.map (cosSim (encode q))).getD best 0⟩ ∧
      ∀ i < (index.map (cosSim (encode q))).length,
        (index.map (cosSim (encode q))).getD i 0 ≤
          (index.map (cosSim (encode q))).getD best 0 := by
  obtain ⟨hb, heq⟩ := resolveQuery_eq_ok encode recipe_names index q hne hlen
  exact ⟨argmaxIdx (index.map (cosSim (encode q))), hb, heq,
    fun i hi => getD_le_getD_argmaxIdx (index.map (cosSim (encode q))) 0 i hi⟩

/-- Witness for C1 at a concrete one-entry catalog. -/
theorem resolveQuery_returns_max_score_entry_witness :
    ("sweet".toList : PyStr) ≠ [] ∧ (["brownie".toList] : List PyStr) ≠ [] ∧
    ([[(1 : ℝ)]] : List Vec).length = (["brownie".toList] : List PyStr).length ∧
    ∃ best : Nat, best < (["brownie".toList] : List PyStr).length ∧
      resolveQuery (fun _ => [(1 : ℝ)]) ["brownie".toList] [[(1 : ℝ)]] "sweet".toList =
        .ok ⟨(["brownie".toList] : List PyStr).getD best [],
             (([[(1 : ℝ)]] : List Vec).map (cosSim ((fun _ : PyStr => [(1 : ℝ)]) "sweet".toList))).getD best 0⟩ ∧
      ∀ i < (([[(1 : ℝ)]] : List Vec).map (cosSim ((fun _ : PyStr => [(1 : ℝ)]) "sweet".toList))).length,
        (([[(1 : ℝ)]] : List Vec).map (cosSim ((fun _ : PyStr => [(1 : ℝ)]) "sweet".toList))).getD i 0 ≤
          (([[(1 : ℝ)]] : List Vec).map (cosSim ((fun _ : PyStr => [(1 : ℝ)]) "sweet".toList))).getD best 0 :=
  ⟨by decide, by decide, rfl,
   resolveQuery_returns_max_score_entry (fun _ => [(1 : ℝ)]) ["brownie".toList]
     [[(1 : ℝ)]] "sweet".toList (by decide) (by decide) rfl⟩

/-- C2: on ties for the maximum score the resolver returns the lowest
catalog position — the position it selects strictly dominates every earlier
position, so among tied maxima the first occurrence wins. -/
theorem resolveQuery_tie_breaks_to_first (encode : PyStr → Vec)
    (recipe_names : List PyStr) (index : List Vec) (q : PyStr)
    (hne : recipe_names ≠ []) (hlen : index.length = recipe_names.length) :
    ∃ best : Nat, best < recipe_names.length ∧
      resolveQuery encode recipe_names index q =
        .ok ⟨recipe_names.getD best [],
             (index.map (cosSim (encode q))).getD best 0⟩ ∧
      (∀ i < (index.map (cosSim (encode q))).length,
        (index.map (cosSim (encode q))).getD i 0 ≤
          (index.map (cosSim (encode q))).getD best 0) ∧
      (∀ i < best,
        (index.map (cosSim (encode q))).getD i 0 <
          (index.map (cosSim (encode q))).getD best 0) := by
  obtain ⟨hb, heq⟩ := resolveQuery_eq_ok encode recipe_names index q hne hlen
  exact ⟨argmaxIdx (index.map (cosSim (encode q))), hb, heq,
    fun i hi => getD_le_getD_argmaxIdx (index.map (cosSim (encode q))) 0 i hi,
    fun i hi => getD_lt_of_lt_argmaxIdx (index.map (cosSim (encode q))) 0 i hi⟩

/-- The concrete tie of spec §8: a two-entry catalog `["Soup", "Stew"]`
whose index makes both entries score identically against the query —
resolution returns `"Soup"`, the first occurrence. -/
theorem resolveQuery_tie_concrete_returns_soup :
    resolveQuery (fun _ => [(0 : ℝ), 1]) ["Soup".toList, "Stew".toList]
      [[(0 : ℝ), 1], [(0 : ℝ), 1]] "warm bowl".toList =
    .ok ⟨"Soup".toList, 1⟩ := by
  have hone : cosSim [(0 : ℝ), 1] [(0 : ℝ), 1] = 1 := by
    rw [cosSim_eq_dot_div]
    have hd : dot [(0 : ℝ), 1] [(0 : ℝ), 1] = 1 := by
      simp [dot]
    rw [hd, magnitude, hd, Real.sqrt_one]
    norm_num
  unfold resolveQuery
  simp [argmaxIdx, hone]

/-- Witness for C2 at the concrete tie. -/
theorem resolveQuery_tie_breaks_to_first_witness :
    (["Soup".toList, "Stew".toList] : List PyStr) ≠ [] ∧
    ([[(0 : ℝ), 1], [(0 : ℝ), 1]] : List Vec).length =
      (["Soup".toList, "Stew".toList] : List PyStr).length ∧
    ∃ best : Nat, best < (["Soup".toList, "Stew".toList] : List PyStr).length ∧
      resolveQuery (fun _ => [(0 : ℝ), 1]) ["Soup".toList, "Stew".toList]
          [[(0 : ℝ), 1], [(0 : ℝ), 1]] "warm bowl".toList =
        .ok ⟨(["Soup".toList, "Stew".toList] : List PyStr).getD best [],
             (([[(0 : ℝ), 1], [(0 : ℝ), 1]] : List Vec).map
               (cosSim ((fun _ : PyStr => [(0 : ℝ), 1]) "warm bowl".toList))).getD best 0⟩ ∧
      (∀ i < (([[(0 : ℝ), 1], [(0 : ℝ), 1]] : List Vec).map
               (cosSim ((fun _ : PyStr => [(0 : ℝ), 1]) "warm bowl".toList))).length,
        (([[(0 : ℝ), 1], [(0 : ℝ), 1]] : List Vec).map
          (cosSim ((fun _ : PyStr => [(0 : ℝ), 1]) "warm bowl".toList))).getD i 0 ≤
          (([[(0 : ℝ), 1], [(0 : ℝ), 1]] : List Vec).map
            (cosSim ((fun _ : PyStr => [(0 : ℝ), 1]) "warm bowl".toList))).getD best 0) ∧
      (∀ i < best,
        (([[(0 : ℝ), 1], [(0 : ℝ), 1]] : List Vec).map
          (cosSim ((fun _ : PyStr => [(0 : ℝ), 1]) "warm bowl".toList))).getD i 0 <
          (([[(0 : ℝ), 1], [(0 : ℝ), 1]] : List Vec).map
            (cosSim ((fun _ : PyStr => [(0 : ℝ), 1]) "warm bowl".toList))).getD best 0) :=
  ⟨by decide, rfl,
   resolveQuery_tie_breaks_to_first (fun _ => [(0 : ℝ), 1])
     ["Soup".toList, "Stew".toList] [[(0 : ℝ), 1], [(0 : ℝ), 1]]
     "warm bowl".toList (by decide) rfl⟩

/-- C10: for every non-empty query against a non-empty aligned catalog,
resolution always succeeds with some catalog entry — there is no similarity
threshold and no no-match outcome. -/
theorem resolveQuery_always_returns_catalog_entry (encode : PyStr → Vec)
    (recipe_names : List PyStr) (index : List Vec) (q : PyStr) (_hq : q ≠ [])
    (hne : recipe_names ≠ []) (hlen : index.length = recipe_names.length) :
    ∃ r : QueryResult, resolveQuery encode recipe_names index q = .ok r ∧
      r.recipe_name ∈ recipe_names := by
  obtain ⟨hb, heq⟩ := resolveQuery_eq_ok encode recipe_names index q hne hlen
  refine ⟨_, heq, ?_⟩
  show recipe_names.getD (argmaxIdx (index.map (cosSim (encode q)))) [] ∈ recipe_names
  rw [List.getD_eq_getElem _ _ hb]
  exact List.getElem_mem hb

/-- Witness for C10: a query unrelated to the sole entry still matches it. -/
theorem resolveQuery_always_returns_catalog_entry_witness :
    ("quantum physics".toList : PyStr) ≠ [] ∧
    (["tomato soup".toList] : List PyStr) ≠ [] ∧
    ([[(1 : ℝ), 0]] : List Vec).length = (["tomato soup".toList] : List PyStr).length ∧
    ∃ r : QueryResult,
      resolveQuery (fun _ => [(0 : ℝ), 1]) ["tomato soup".toList] [[(1 : ℝ), 0]]
        "quantum physics".toList = .ok r ∧
      r.recipe_name ∈ (["tomato soup".toList] : List PyStr) :=
  ⟨by decide, by decide, rfl,
   resolveQuery_always_returns_catalog_entry (fun _ => [(0 : ℝ), 1])
     ["tomato soup".toList] [[(1 : ℝ), 0]] "quantum physics".toList
     (by decide) (by decide) rfl⟩

/-- C6: the similarity used for selection equals the dot product divided by
the product of the magnitudes; if either vector has zero magnitude the
similarity is exactly 0, and in particular a zero-vector catalog entry
scores 0 against every query. -/
theorem cosSim_dot_div_magnitudes (a b : Vec) :
    cosSim a b = dot a b / (magnitude a * magnitude b) ∧
    ((magnitude a = 0 ∨ magnitude b = 0) → cosSim a b = 0) ∧
    (∀ n : Nat, cosSim a (List.replicate n 0) = 0 ∧
      cosSim (List.replicate n 0) b = 0) := by
  refine ⟨cosSim_eq_dot_div a b, ?_, ?_⟩
  · rintro (h | h)
    · rw [cosSim_eq_dot_div, h, zero_mul, div_zero]
    · rw [cosSim_eq_dot_div, h, mul_zero, div_zero]
  · intro n
    constructor
    · rw [cosSim_eq_dot_div, magnitude_replicate_zero, mul_zero, div_zero]
    · rw [cosSim_eq_dot_div, magnitude_replicate_zero, zero_mul, div_zero]

/-- Witness for C6: the zero vector scores 0 against `[3, 4]`. -/
theorem cosSim_dot_div_magnitudes_witness :
    (magnitude [(0 : ℝ), 0] = 0 ∨ magnitude [(3 : ℝ), 4] = 0) ∧
    cosSim [(0 : ℝ), 0] [(3 : ℝ), 4] = 0 :=
  have hm : magnitude [(0 : ℝ), 0] = 0 := by
    rw [show [(0 : ℝ), 0] = List.replicate 2 (0 : ℝ) from rfl]
    exact magnitude_replicate_zero 2
  ⟨Or.inl hm, (cosSim_dot_div_magnitudes [(0 : ℝ), 0] [(3 : ℝ), 4]).2.1 (Or.inl hm)⟩

/-- C8: the request sent to the prediction gateway carries the matched
recipe name stripped of surrounding whitespace and lowercased, so it does
not depend on the whitespace padding or the casing of the catalog entry. -/
theorem mkPredictRequest_lower_trim (matched : PyStr) :
    (mkPredictRequest matched).recipe_name = pyLower (pyStrip matched) ∧
    (∀ pre post, (∀ c ∈ pre, isPySpace c = true) → (∀ c ∈ post, isPySpace c = true) →
      mkPredictRequest (pre ++ (matched ++ post)) = mkPredictRequest matched) ∧
    (∀ other : PyStr, pyLower other = pyLower matched →
      mkPredictRequest other = mkPredictRequest matched) := by
  refine ⟨rfl, ?_, ?_⟩
  · intro pre post hpre hpost
    unfold mkPredictRequest
    rw [pyStrip_pad matched pre post hpre hpost]
  · intro other h
    unfold mkPredictRequest
    rw [← pyStrip_pyLower other, ← pyStrip_pyLower matched, h]

/-- Witness for C8: padding `"Soup"` with spaces leaves the request
unchanged. -/
theorem mkPredictRequest_lower_trim_witness :
    (∀ c ∈ (" ".toList : PyStr), isPySpace c = true) ∧
    mkPredictRequest (" ".toList ++ ("Soup".toList ++ "  ".toList)) =
      mkPredictRequest "Soup".toList :=
  ⟨by decide,
   (mkPredictRequest_lower_trim "Soup".toList).2.1 " ".toList "  ".toList
     (by decide) (by decide)⟩

/-- C9: a non-200 gateway response is surfaced with its status code and its
body verbatim (the body is a suffix of the banner, the decimal status code
appears in it), exactly one request was issued (no retry), and the
in-memory catalog and index are unchanged. -/
theorem non200_surfaced_no_retry_state_unchanged (recipe_names : List PyStr)
    (recipe_embeddings : List Vec) (matched : PyStr) (resp : ApiResponse)
    (h : resp.status_code ≠ 200) :
    (queryApiStep recipe_names recipe_embeddings matched resp).1 =
      (recipe_names, recipe_embeddings) ∧
    (queryApiStep recipe_names recipe_embeddings matched resp).2.1.length = 1 ∧
    (queryApiStep recipe_names recipe_embeddings matched resp).2.2 =
      .apiError (errorText resp.status_code resp.text) ∧
    (∃ pre, errorText resp.status_code resp.text = pre ++ resp.text) ∧
    (∃ u v, errorText resp.status_code resp.text =
        u ++ ((Nat.repr resp.status_code).toList ++ v)) := by
  refine ⟨rfl, rfl, ?_, ?_, ?_⟩
  · show handleApiResponse resp = _
    unfold handleApiResponse
    rw [if_neg h]
  · exact ⟨"🚫 API error ".toList ++ (Nat.repr resp.status_code).toList ++ ": ".toList, rfl⟩
  · refine ⟨"🚫 API error ".toList, ": ".toList ++ resp.text, ?_⟩
    simp [errorText, List.append_assoc]

/-- Witness for C9 at a concrete 404 response. -/
theorem non200_surfaced_no_retry_state_unchanged_witness :
    (404 : Nat) ≠ 200 ∧
    (queryApiStep ["soup".toList] [[(1 : ℝ)]] "soup".toList
        ⟨404, "not found".toList⟩).2.2 =
      .apiError (errorText 404 "not found".toList) :=
  ⟨by decide,
   (non200_surfaced_no_retry_state_unchanged ["soup".toList] [[(1 : ℝ)]]
     "soup".toList ⟨404, "not found".toList⟩ (by decide)).2.2.1⟩
